import Mathlib

set_option maxRecDepth 100000

/-!
# Verification of the RAG pipeline operator's reconciliation and sync engine

Shallow embedding of the Go controllers of `rag-operator`:
`controllers/source_watcher.go`, `controllers/embeddingjob_controller.go` (which also
contains the DocumentSet reconciler), `controllers/indexjob_controller.go`, together with
the `api/v1alpha1` resource types.

External effects (the Kubernetes API, S3 listings, HTTP responses, filesystem walks and
the wall clock) are passed as explicit inputs.  Machine integers are modelled as `Int`
(Go `int`/`int64` never overflow on the values handled here); hashing is modelled by a
full executable SHA-256 over UTF-8 bytes, mirroring Go's `crypto/sha256` + `encoding/hex`.
-/

/-! ## Byte-level primitives: hex encoding, UTF-8, SHA-256 -/

/-- Lower-case hex digit, as produced by Go's `encoding/hex`. -/
def hexDigit (n : Nat) : Char :=
  if n < 10 then Char.ofNat (48 + n) else Char.ofNat (87 + n)

/-- Two lower-case hex digits of one byte. -/
def hexOfByte (b : Nat) : List Char :=
  [hexDigit ((b / 16) % 16), hexDigit (b % 16)]

/-- Model of Go's `hex.EncodeToString` over a byte list. -/
def hexEncode (bs : List Nat) : String :=
  ⟨(bs.map hexOfByte).flatten⟩

/-- UTF-8 encoding of one character (Unicode standard; Go strings are UTF-8 bytes). -/
def utf8EncodeCharBytes (c : Char) : List Nat :=
  let n := c.toNat
  if n < 0x80 then [n]
  else if n < 0x800 then
    [0xC0 ||| (n >>> 6), 0x80 ||| (n &&& 0x3F)]
  else if n < 0x10000 then
    [0xE0 ||| (n >>> 12), 0x80 ||| ((n >>> 6) &&& 0x3F), 0x80 ||| (n &&& 0x3F)]
  else
    [0xF0 ||| (n >>> 18), 0x80 ||| ((n >>> 12) &&& 0x3F),
     0x80 ||| ((n >>> 6) &&& 0x3F), 0x80 ||| (n &&& 0x3F)]

/-- The UTF-8 bytes of a string (what Go's `hasher.Write([]byte(s))` feeds the hash). -/
def utf8Bytes (s : String) : List Nat :=
  (s.data.map utf8EncodeCharBytes).flatten

/-- Truncation to 32 bits. -/
def w32 (n : Nat) : Nat := n % 4294967296

/-- 32-bit right rotation. -/
def rotr32 (n x : Nat) : Nat := w32 ((x >>> n) ||| (x <<< (32 - n)))

/-- SHA-256 round constants (FIPS 180-4, written in decimal). -/
def shaK : List Nat :=
  [1116352408, 1899447441, 3049323471, 3921009573, 961987163,
   1508970993, 2453635748, 2870763221, 3624381080, 310598401,
   607225278, 1426881987, 1925078388, 2162078206, 2614888103,
   3248222580, 3835390401, 4022224774, 264347078, 604807628,
   770255983, 1249150122, 1555081692, 1996064986, 2554220882,
   2821834349, 2952996808, 3210313671, 3336571891, 3584528711,
   113926993, 338241895, 666307205, 773529912, 1294757372,
   1396182291, 1695183700, 1986661051, 2177026350, 2456956037,
   2730485921, 2820302411, 3259730800, 3345764771, 3516065817,
   3600352804, 4094571909, 275423344, 430227734, 506948616,
   659060556, 883997877, 958139571, 1322822218, 1537002063,
   1747873779, 1955562222, 2024104815, 2227730452, 2361852424,
   2428436474, 2756734187, 3204031479, 3329325298]

/-- SHA-256 initial hash state (FIPS 180-4, written in decimal). -/
def shaH0 : List Nat :=
  [1779033703, 3144134277, 1013904242,
   2773480762, 1359893119, 2600822924,
   528734635, 1541459225]

def shaBigSigma0 (x : Nat) : Nat := rotr32 2 x ^^^ rotr32 13 x ^^^ rotr32 22 x

def shaBigSigma1 (x : Nat) : Nat := rotr32 6 x ^^^ rotr32 11 x ^^^ rotr32 25 x

def shaSmallSigma0 (x : Nat) : Nat := rotr32 7 x ^^^ rotr32 18 x ^^^ (x >>> 3)

def shaSmallSigma1 (x : Nat) : Nat := rotr32 17 x ^^^ rotr32 19 x ^^^ (x >>> 10)

def shaCh (x y z : Nat) : Nat := (x &&& y) ^^^ ((x ^^^ 0xffffffff) &&& z)

def shaMaj (x y z : Nat) : Nat := (x &&& y) ^^^ (x &&& z) ^^^ (y &&& z)

/-- Big-endian 8-byte encoding of a length. -/
def be64 (n : Nat) : List Nat :=
  [(n >>> 56) % 256, (n >>> 48) % 256, (n >>> 40) % 256, (n >>> 32) % 256,
   (n >>> 24) % 256, (n >>> 16) % 256, (n >>> 8) % 256, n % 256]

/-- SHA-256 padding: `0x80`, zeros to 56 mod 64, then the bit length. -/
def shaPad (msg : List Nat) : List Nat :=
  let zeros := (120 - ((msg.length + 1) % 64)) % 64
  msg ++ [0x80] ++ List.replicate zeros 0 ++ be64 (8 * msg.length)

/-- Group bytes into big-endian 32-bit words. -/
def bytesToWords : List Nat → List Nat
  | b0 :: b1 :: b2 :: b3 :: rest =>
      (b3 ||| (b2 <<< 8) ||| (b1 <<< 16) ||| (b0 <<< 24)) :: bytesToWords rest
  | _ => []

/-- One extension step of the SHA-256 message schedule. -/
def shaScheduleStep (ws : List Nat) : List Nat :=
  ws ++ [w32 (shaSmallSigma1 (ws.getD (ws.length - 2) 0) + ws.getD (ws.length - 7) 0 +
              shaSmallSigma0 (ws.getD (ws.length - 15) 0) + ws.getD (ws.length - 16) 0)]

/-- Extend the 16 block words to 64 schedule words. -/
def shaSchedule : Nat → List Nat → List Nat
  | 0, ws => ws
  | n + 1, ws => shaSchedule n (shaScheduleStep ws)

/-- One SHA-256 compression round on the 8-word state. -/
def shaRound (kw : Nat × Nat) (st : List Nat) : List Nat :=
  match st with
  | [a, b, c, d, e, f, g, h] =>
      let t1 := w32 (h + shaBigSigma1 e + shaCh e f g + kw.1 + kw.2)
      let t2 := w32 (shaBigSigma0 a + shaMaj a b c)
      [w32 (t1 + t2), a, b, c, w32 (d + t1), e, f, g]
  | st => st

/-- Process one 64-byte block. -/
def shaBlock (h : List Nat) (block : List Nat) : List Nat :=
  let ws := shaSchedule 48 (bytesToWords block)
  let st := (shaK.zip ws).foldl (fun s kw => shaRound kw s) h
  (h.zip st).map (fun p => w32 (p.1 + p.2))

/-- Chop a padded message into 64-byte blocks (fuel-driven structural recursion). -/
def chunks64Aux : Nat → List Nat → List (List Nat)
  | 0, _ => []
  | _ + 1, [] => []
  | fuel + 1, l => l.take 64 :: chunks64Aux fuel (l.drop 64)

def chunks64 (l : List Nat) : List (List Nat) := chunks64Aux l.length l

/-- Big-endian bytes of one 32-bit word. -/
def wordBytesBE (wd : Nat) : List Nat :=
  [(wd >>> 24) % 256, (wd >>> 16) % 256, (wd >>> 8) % 256, wd % 256]

/-- SHA-256 digest of a byte list. -/
def sha256Bytes (msg : List Nat) : List Nat :=
  (((chunks64 (shaPad msg)).foldl shaBlock shaH0).map wordBytesBE).flatten

/-- Model of the Go pattern `hex.EncodeToString(sha256(...writes of strings...))`:
the lower-case hex SHA-256 digest of a string's UTF-8 bytes.  Sequential
`hasher.Write([]byte(s_i))` calls hash the byte concatenation, i.e. the UTF-8
bytes of the string concatenation. -/
def sha256Hex (s : String) : String :=
  hexEncode (sha256Bytes (utf8Bytes s))

/-! ## Go standard-library models -/

/-- Model of `strings.Trim(s, "\"")`: strip leading and trailing quote characters. -/
def trimQuotes (s : String) : String :=
  ⟨((s.data.dropWhile (· = '"')).reverse.dropWhile (· = '"')).reverse⟩

/-- Split a character list at the first occurrence of `sep`; the second component is
`none` when `sep` does not occur.  Models `strings.SplitN(s, sep, 2)` (and, for `'#'`,
the `strings.Index` parsing in `checkGitSource`). -/
def breakAtChar (sep : Char) : List Char → List Char × Option (List Char)
  | [] => ([], none)
  | c :: cs =>
      if c = sep then ([], some cs)
      else
        let r := breakAtChar sep cs
        (c :: r.1, r.2)

/-- `strings.SplitN(s, "/", 2)` as used by the URI parsers: first component and the
optional remainder. -/
def splitN2 (sep : Char) (s : String) : String × Option String :=
  let r := breakAtChar sep s.data
  (⟨r.1⟩, r.2.map (fun l => ⟨l⟩))

/-- Model of Go `sort.Strings` (any correct sort of strings produces this list, since
string comparison is a linear order). -/
def sortStrings (l : List String) : List String :=
  List.insertionSort (· ≤ ·) l

/-- Digit-sequence value for duration parsing. -/
def digitsVal (l : List Char) : Nat :=
  l.foldl (fun a c => a * 10 + (c.toNat - 48)) 0

/-- Nanosecond multiplier of a Go duration unit (`unitMap` in `time/format.go`). -/
def durationUnitMul (u : String) : Option Nat :=
  if u = "ns" then some 1
  else if u = "us" ∨ u = "µs" ∨ u = "μs" then some 1000
  else if u = "ms" then some 1000000
  else if u = "s" then some 1000000000
  else if u = "m" then some 60000000000
  else if u = "h" then some 3600000000000
  else none

/-- Main loop of Go `time.ParseDuration`: repeatedly read `[0-9]*(\.[0-9]*)?<unit>`.
Fuel-driven; the fractional contribution is computed in exact integer arithmetic
(`f * unit / scale`), which agrees with Go's float64 computation on all realistic
interval strings.  Overflow checks are omitted (values here are far below 2^63). -/
def parseDurationLoop : Nat → List Char → Nat → Option Nat
  | 0, _, _ => none
  | _ + 1, [], acc => some acc
  | fuel + 1, l, acc =>
      let intPart := l.takeWhile Char.isDigit
      let r1 := l.dropWhile Char.isDigit
      let pre := !intPart.isEmpty
      let fr :=
        match r1 with
        | '.' :: rest =>
            let fracPart := rest.takeWhile Char.isDigit
            (digitsVal fracPart, 10 ^ fracPart.length, !fracPart.isEmpty, rest.dropWhile Char.isDigit)
        | _ => (0, 1, false, r1)
      if pre = false ∧ fr.2.2.1 = false then none
      else
        let unitChars := fr.2.2.2.takeWhile (fun c => ¬ c.isDigit ∧ c ≠ '.')
        let r3 := fr.2.2.2.dropWhile (fun c => ¬ c.isDigit ∧ c ≠ '.')
        if unitChars = [] then none
        else
          match durationUnitMul ⟨unitChars⟩ with
          | none => none
          | some mul => parseDurationLoop fuel r3 (acc + digitsVal intPart * mul + fr.1 * mul / fr.2.1)

/-- Model of Go `time.ParseDuration`, in nanoseconds.  `none` models a parse error. -/
def goParseDuration (s : String) : Option Int :=
  let signed :=
    match s.data with
    | '-' :: r => (true, r)
    | '+' :: r => (false, r)
    | r => (false, r)
  if signed.2 = ['0'] then some 0
  else if signed.2 = [] then none
  else (parseDurationLoop (signed.2.length + 1) signed.2 0).map
    (fun n => if signed.1 then -(n : Int) else (n : Int))

/-- Nanoseconds per second (`time.Second`). -/
def nsPerSecond : Int := 1000000000

/-- `time.Minute` in nanoseconds. -/
def nsPerMinute : Int := 60 * nsPerSecond

/-- Association-list lookup standing in for a Go `map[string]string` read; Go returns
the zero value `""` for a missing key, hence the `getD ""` at use sites. -/
def lookupStr (m : List (String × String)) (k : String) : Option String :=
  List.lookup k m

/-- `strings.HasPrefix`, computed on the character list (kernel-reducible). -/
def strStartsWith (s pre : String) : Bool :=
  pre.data.isPrefixOf s.data

/-- `strings.HasSuffix`, computed on the character list (kernel-reducible). -/
def strEndsWith (s suf : String) : Bool :=
  suf.data.isSuffixOf s.data

/-- Dropping a prefix of characters (`strings.TrimPrefix` after a successful
prefix test; all trimmed prefixes here are ASCII, so characters = bytes). -/
def strDrop (s : String) (n : Nat) : String :=
  ⟨s.data.drop n⟩

/-- Taking a prefix of characters (`newHash[:12]` on an ASCII hex string). -/
def strTake (s : String) (n : Nat) : String :=
  ⟨s.data.take n⟩

/-! ## Data model (`api/v1alpha1`)

Structures follow the Go types.  `metav1.Time` values are modelled as `Int`
(Unix nanoseconds); pointer fields become `Option`.  A Go `map[string]string`
is modelled as an association list with distinct keys. -/

structure SecretReference where
  name : String
deriving DecidableEq, Repr

structure SourceSpec where
  type : String
  uri : String
  secretRef : Option SecretReference
deriving DecidableEq, Repr

structure ChunkingSpec where
  size : Int
  overlap : Int
  format : String
deriving DecidableEq, Repr

structure EmbeddingSpec where
  model : String
  device : String
  batchSize : Int
  autoRetry : Bool
deriving DecidableEq, Repr

structure IndexSpec where
  vectorDB : String
  collection : String
  aliasName : String
  recreate : Bool
deriving DecidableEq, Repr

/-- Modelled from the spec: the `SyncPolicy` type (its Go definition is not under
`src/`; fields follow spec §3.1 and the uses in `source_watcher.go`:
`Mode`, `Interval`, `PauseSync`, plus the remaining declared fields). -/
structure SyncPolicy where
  mode : String
  interval : String
  triggerOn : String
  incrementalSync : Bool
  maxConcurrentSyncs : Int
  pauseSync : Bool
deriving DecidableEq, Repr

/-- `SyncModeAuto` constant. -/
def SyncModeAuto : String := "auto"

structure DocumentSetSpec where
  source : SourceSpec
  chunking : ChunkingSpec
  embedding : EmbeddingSpec
  index : IndexSpec
  syncPolicy : Option SyncPolicy
deriving DecidableEq, Repr

/-- `SourceMetadata` as used by `source_watcher.go` and spec §3.1 (its Go
definition is not under `src/`): per-file hash map, git branch/commit, HTTP ETag,
last-modified instant, total size and file count.  `fileHashes = none` models a
nil Go map. -/
structure SourceMetadata where
  fileCount : Int := 0
  totalSize : Int := 0
  fileHashes : Option (List (String × String)) := none
  s3ETag : String := ""
  gitBranch : String := ""
  gitCommitHash : String := ""
  lastModifiedTime : Option Int := none
deriving DecidableEq, Repr

structure Condition where
  type : String
  status : Bool
  reason : String
  message : String
  lastTransitionTime : Int
deriving DecidableEq, Repr

/-- `DocumentSetStatus`: the fields of the in-repo type plus the sync-tracking
fields used by `source_watcher.go` (`lastSourceHash`, `sourceMetadata`,
`lastSourceCheckTime`; spec §3.1). -/
structure DocumentSetStatus where
  phase : String := ""
  message : String := ""
  conditions : List Condition := []
  lastEmbeddingJobRef : String := ""
  lastIndexJobRef : String := ""
  currentCollection : String := ""
  totalChunks : Int := 0
  totalVectors : Int := 0
  lastUpdateTime : Option Int := none
  observedGeneration : Int := 0
  lastSourceHash : String := ""
  sourceMetadata : Option SourceMetadata := none
  lastSourceCheckTime : Option Int := none
deriving DecidableEq, Repr

structure DocumentSet where
  name : String
  nspace : String
  generation : Int
  spec : DocumentSetSpec
  status : DocumentSetStatus
deriving DecidableEq, Repr

/-- DocumentSet phase constants. -/
def DocumentSetPhasePending : String := "Pending"

def DocumentSetPhaseEmbedding : String := "Embedding"

def DocumentSetPhaseIndexing : String := "Indexing"

def DocumentSetPhaseReady : String := "Ready"

def DocumentSetPhaseFailed : String := "Failed"

/-- Source type constants. -/
def SourceTypeS3 : String := "s3"

def SourceTypeHTTP : String := "http"

def SourceTypeGit : String := "git"

def SourceTypePVC : String := "pvc"

structure VectorDBSpec where
  type : String
  collection : String
  endpoint : String
  secretRef : Option SecretReference
deriving DecidableEq, Repr

structure RetryPolicy where
  maxRetries : Int
  backoffSeconds : Int
deriving DecidableEq, Repr

structure EmbeddingJobSpec where
  documentSet : String
  embeddingModel : String
  vectorDB : VectorDBSpec
  retryPolicy : Option RetryPolicy
deriving DecidableEq, Repr

structure JobProgress where
  totalChunks : Int := 0
  processedChunks : Int := 0
  percentage : Int := 0
deriving DecidableEq, Repr

structure EmbeddingJobStatus where
  phase : String := ""
  progress : JobProgress := {}
  startTime : Option Int := none
  completionTime : Option Int := none
  message : String := ""
  conditions : List Condition := []
  jobRef : String := ""
  retryCount : Int := 0
deriving DecidableEq, Repr

structure EmbeddingJob where
  name : String
  nspace : String
  spec : EmbeddingJobSpec
  status : EmbeddingJobStatus
deriving DecidableEq, Repr

/-- EmbeddingJob phase constants. -/
def EmbeddingJobPhasePending : String := "Pending"

def EmbeddingJobPhaseRunning : String := "Running"

def EmbeddingJobPhaseSucceeded : String := "Succeeded"

def EmbeddingJobPhaseFailed : String := "Failed"

structure IndexConfig where
  type : String
  parameters : List (String × String)
deriving DecidableEq, Repr

structure IndexJobSpec where
  documentSet : String
  vectorDB : VectorDBSpec
  targetAlias : String
  indexSpec : IndexConfig
  retryPolicy : Option RetryPolicy
deriving DecidableEq, Repr

structure IndexProgress where
  indexedVectors : Int := 0
  totalVectors : Int := 0
  percentage : Int := 0
deriving DecidableEq, Repr

structure IndexJobStatus where
  phase : String := ""
  progress : IndexProgress := {}
  message : String := ""
  startTime : Option Int := none
  completionTime : Option Int := none
  conditions : List Condition := []
  jobRef : String := ""
  aliasSwapped : Bool := false
  retryCount : Int := 0
deriving DecidableEq, Repr

structure IndexJob where
  name : String
  nspace : String
  spec : IndexJobSpec
  status : IndexJobStatus
deriving DecidableEq, Repr

/-- IndexJob phase constants. -/
def IndexJobPhasePending : String := "Pending"

def IndexJobPhaseBuilding : String := "Building"

def IndexJobPhaseOptimizing : String := "Optimizing"

def IndexJobPhaseSucceeded : String := "Succeeded"

def IndexJobPhaseFailed : String := "Failed"

/-- Observed status of the underlying Kubernetes batch Job. -/
structure K8sJobStatus where
  succeeded : Int := 0
  failed : Int := 0
  active : Int := 0
deriving DecidableEq, Repr

/-- `ctrl.Result`: `requeueAfter` is in nanoseconds, `0` meaning unset. -/
structure ReconcileResult where
  requeue : Bool := false
  requeueAfter : Int := 0
deriving DecidableEq, Repr

/-- `ctrl.Result{}`. -/
def emptyResult : ReconcileResult := {}

/-- `ctrl.Result{Requeue: true}`. -/
def requeueNow : ReconcileResult := { requeue := true }

/-- `requeueAfter = 30 * time.Second` constant of the controllers. -/
def requeueAfterConst : ReconcileResult := { requeueAfter := 30 * nsPerSecond }

/-! ## Source Watcher (`controllers/source_watcher.go`)

Network, S3, filesystem and clock effects are explicit inputs:
* the S3 listing (or its transport error) for `checkS3Source`,
* the HTTP response (or its transport error) for `checkHTTPSource`,
* the `time.Now().Format("2006-01-02-15")` hour bucket for `checkGitSource`,
* path existence and the walked files for `checkPVCSource`.
Errors are `Except.error`; log statements have no semantic content. -/

/-- `SourceChangeResult` (the Go `Error` field is the `Except` error channel). -/
structure SourceChangeResult where
  changed : Bool := false
  newHash : String := ""
  newMetadata : Option SourceMetadata := none
  filesChanged : Int := 0
  filesAdded : Int := 0
  filesDeleted : Int := 0
  changedFiles : List String := []
  addedFiles : List String := []
  deletedFiles : List String := []
deriving DecidableEq, Repr

/-- One object of an S3 `ListObjectsV2` result (the fields the watcher reads). -/
structure S3Object where
  key : String
  eTag : String
  size : Int
deriving DecidableEq, Repr

/-- `diffFileHashes`: iteration over the Go maps is modelled by the list order;
all properties proved about it are order-independent. -/
def diffFileHashes (old new : List (String × String)) :
    List String × List String × List String :=
  let added := ((new.filter (fun p => (lookupStr old p.1).isNone)).map Prod.fst)
  let changed := ((new.filter (fun p =>
    match lookupStr old p.1 with
    | some oldHash => oldHash ≠ p.2
    | none => false)).map Prod.fst)
  let deleted := ((old.filter (fun p => (lookupStr new p.1).isNone)).map Prod.fst)
  (added, deleted, changed)

/-- The combined-hash computation shared verbatim by `checkS3Source` (lines 175-184)
and `checkPVCSource` (lines 423-430): sort the file names, then hash
`name ∥ fileHashes[name]` in sorted order.  A missing key yields Go's zero
value `""`, hence `getD ""`. -/
def combineFileHashes (allFiles : List String) (fileHashes : List (String × String)) : String :=
  sha256Hex (String.join ((sortStrings allFiles).map
    (fun f => f ++ ((lookupStr fileHashes f).getD ""))))

/-- The change-determination tail shared by `checkS3Source` (lines 196-220) and the
walk branch of `checkPVCSource` (lines 443-463). -/
def applyChangeDetermination (ds : DocumentSet) (fileCount : Int)
    (fileHashes : List (String × String)) (result : SourceChangeResult) : SourceChangeResult :=
  if ds.status.lastSourceHash ≠ "" ∧ ds.status.lastSourceHash ≠ result.newHash then
    match ds.status.sourceMetadata with
    | some md =>
        match md.fileHashes with
        | some oldHashes =>
            let d := diffFileHashes oldHashes fileHashes
            { result with
              changed := true
              addedFiles := d.1, deletedFiles := d.2.1, changedFiles := d.2.2
              filesAdded := (d.1.length : Int)
              filesDeleted := (d.2.1.length : Int)
              filesChanged := (d.2.2.length : Int) }
        | none => { result with changed := true }
    | none => { result with changed := true }
  else if ds.status.lastSourceHash = "" then
    { result with changed := true, filesAdded := fileCount }
  else
    result

/-- `checkS3Source`: credentials and pagination happen inside the AWS SDK; the
watcher's own logic starts from the listed objects (or the listing error). -/
def checkS3Source (ds : DocumentSet) (listing : Except String (List S3Object)) :
    Except String SourceChangeResult :=
  if ¬ strStartsWith ds.spec.source.uri "s3://" then
    .error ("invalid S3 URI: " ++ ds.spec.source.uri)
  else
    match listing with
    | .error e => .error ("failed to list S3 objects: " ++ e)
    | .ok objects =>
        let kept := objects.filter (fun o => ¬ strEndsWith o.key "/")
        let allFiles := kept.map (fun o => o.key)
        let fileHashes := kept.map (fun o => (o.key, trimQuotes o.eTag))
        let totalSize := kept.foldl (fun acc o => acc + o.size) 0
        let fileCount := (kept.length : Int)
        let newHash := combineFileHashes allFiles fileHashes
        let result : SourceChangeResult :=
          { newHash := newHash
            newMetadata := some
              { fileCount := fileCount, totalSize := totalSize, fileHashes := some fileHashes } }
        .ok (applyChangeDetermination ds fileCount fileHashes result)

/-- The metadata of an HTTP HEAD response read by `checkHTTPSource`. -/
structure HTTPResponse where
  statusCode : Int
  etag : String
  lastModified : String
  contentLength : Int
deriving DecidableEq, Repr

/-- The request `checkHTTPSource` issues, as built by lines 230-245. -/
structure HTTPRequestModel where
  method : String
  url : String
  authorization : Option String
  timeoutSeconds : Int
deriving DecidableEq, Repr

/-- The HEAD request construction of `checkHTTPSource`: `HTTP_AUTH_TOKEN` sets a
Bearer header, then `HTTP_BASIC_AUTH` overwrites it with a Basic header; the
client timeout is `30 * time.Second`. -/
def buildHTTPRequest (ds : DocumentSet) (secretData : Option (List (String × String))) :
    HTTPRequestModel :=
  let auth0 : Option String :=
    match secretData with
    | none => none
    | some data =>
        let token := (lookupStr data "HTTP_AUTH_TOKEN").getD ""
        let withBearer := if token ≠ "" then some ("Bearer " ++ token) else none
        let basic := (lookupStr data "HTTP_BASIC_AUTH").getD ""
        if basic ≠ "" then some ("Basic " ++ basic) else withBearer
  { method := "HEAD", url := ds.spec.source.uri, authorization := auth0, timeoutSeconds := 30 }

/-- `checkHTTPSource` past the transport: requires status exactly `http.StatusOK`
(200), hashes `ETag ∥ Last-Modified ∥ ContentLength`, and fills the result. -/
def checkHTTPSource (ds : DocumentSet) (resp : Except String HTTPResponse) :
    Except String SourceChangeResult :=
  match resp with
  | .error e => .error ("HTTP HEAD request failed: " ++ e)
  | .ok r =>
      if r.statusCode ≠ 200 then
        .error ("HTTP HEAD returned status " ++ toString r.statusCode)
      else
        let newHash := sha256Hex (r.etag ++ r.lastModified ++ toString r.contentLength)
        let result : SourceChangeResult :=
          { newHash := newHash
            newMetadata := some { s3ETag := r.etag, totalSize := r.contentLength } }
        if ds.status.lastSourceHash ≠ "" ∧ ds.status.lastSourceHash ≠ newHash then
          .ok { result with changed := true, filesChanged := 1 }
        else if ds.status.lastSourceHash = "" then
          .ok { result with changed := true, filesAdded := 1 }
        else
          .ok result

/-- `checkGitSource`: parses `<repo>#<branch>` (default `main`), then — instead of
any remote lookup — hashes `uri ∥ branch ∥ time.Now().Format("2006-01-02-15")`
(hour-level bucket, passed here as `hourBucket`) and uses the first 12 hex
characters as a simulated commit hash. -/
def checkGitSource (ds : DocumentSet) (hourBucket : String) : SourceChangeResult :=
  let p := splitN2 '#' ds.spec.source.uri
  let uri := p.1
  let branch := p.2.getD "main"
  let newHash := sha256Hex (uri ++ branch ++ hourBucket)
  let md : SourceMetadata := { gitBranch := branch, gitCommitHash := strTake newHash 12 }
  let result : SourceChangeResult := { newHash := newHash, newMetadata := some md }
  match ds.status.sourceMetadata with
  | some old =>
      if old.gitCommitHash ≠ "" then
        if old.gitCommitHash ≠ md.gitCommitHash then { result with changed := true } else result
      else if ds.status.lastSourceHash = "" then { result with changed := true }
      else result
  | none =>
      if ds.status.lastSourceHash = "" then { result with changed := true } else result

/-- One regular file met by the `filepath.Walk` of `checkPVCSource`.
`contentMD5 = some h` models a successful `hashFile` (MD5 of the content);
`none` models a read error, after which the code falls back to `mtime-size`. -/
structure PVCFile where
  relPath : String
  size : Int
  mtimeUnix : Int
  contentMD5 : Option String
deriving DecidableEq, Repr

/-- The per-file hash chosen by `checkPVCSource`: content MD5 for files under
10 MiB (falling back to `"<mtime>-<size>"` on hash error), synthetic
`"<mtime>-<size>"` otherwise. -/
def pvcFileHash (f : PVCFile) : String :=
  if f.size < 10 * 1024 * 1024 then
    match f.contentMD5 with
    | some h => h
    | none => toString f.mtimeUnix ++ "-" ++ toString f.size
  else
    toString f.mtimeUnix ++ "-" ++ toString f.size

/-- `checkPVCSource`: URI `pvc://<name>/<subpath>`; when the local mount path is
missing (`pathExists = false`) the hash is `SHA256(pvcName ∥ subPath)` with an
empty metadata file count, and `changed` is set only for an empty
`lastSourceHash`; otherwise the walked files are hashed like S3. -/
def checkPVCSource (ds : DocumentSet) (pathExists : Bool)
    (walk : Except String (List PVCFile)) : Except String SourceChangeResult :=
  if ¬ strStartsWith ds.spec.source.uri "pvc://" then
    .error ("invalid PVC URI: " ++ ds.spec.source.uri)
  else
    let p := splitN2 '/' (strDrop ds.spec.source.uri 6)
    let pvcName := p.1
    let subPath := (p.2).getD ""
    if pathExists = false then
      let result : SourceChangeResult :=
        { newHash := sha256Hex (pvcName ++ subPath)
          newMetadata := some { fileCount := 0 } }
      if ds.status.lastSourceHash = "" then .ok { result with changed := true }
      else .ok result
    else
      match walk with
      | .error e => .error ("failed to walk PVC directory: " ++ e)
      | .ok files =>
          let allFiles := files.map (fun f => f.relPath)
          let fileHashes := files.map (fun f => (f.relPath, pvcFileHash f))
          let totalSize := files.foldl (fun acc f => acc + f.size) 0
          let latestModTime := files.foldl
            (fun acc f => if f.mtimeUnix > acc then f.mtimeUnix else acc) 0
          let newHash := combineFileHashes allFiles fileHashes
          let result : SourceChangeResult :=
            { newHash := newHash
              newMetadata := some
                { fileCount := (files.length : Int), totalSize := totalSize
                  fileHashes := some fileHashes, lastModifiedTime := some latestModTime } }
          .ok (applyChangeDetermination ds (files.length : Int) fileHashes result)

/-- The branch-and-data outcome of `ShouldSync` (the Go strings carry exactly this
information; the deferred-interval message also embeds the remaining time). -/
inductive SyncDecisionReason where
  | noPolicy
  | paused
  | notAuto
  | waitingRemaining (remainingNs : Int)
  | intervalReached
deriving DecidableEq, Repr

/-- `ShouldSync`: permits a sync only with an auto, unpaused policy whose parsed
interval (default 5 minutes on a parse error — no floor is applied here) has
elapsed since `lastSourceCheckTime`. -/
def ShouldSync (ds : DocumentSet) (nowNs : Int) : Bool × SyncDecisionReason :=
  match ds.spec.syncPolicy with
  | none => (false, .noPolicy)
  | some policy =>
      if policy.pauseSync then (false, .paused)
      else if policy.mode ≠ SyncModeAuto then (false, .notAuto)
      else
        let interval := (goParseDuration policy.interval).getD (5 * nsPerMinute)
        match ds.status.lastSourceCheckTime with
        | some t =>
            let elapsed := nowNs - t
            if elapsed < interval then (false, .waitingRemaining (interval - elapsed))
            else (true, .intervalReached)
        | none => (true, .intervalReached)

/-- `GetSyncInterval`: default 5 minutes on a missing policy, empty or malformed
interval string; floor of 1 minute otherwise. -/
def GetSyncInterval (ds : DocumentSet) : Int :=
  match ds.spec.syncPolicy with
  | none => 5 * nsPerMinute
  | some policy =>
      if policy.interval = "" then 5 * nsPerMinute
      else
        match goParseDuration policy.interval with
        | none => 5 * nsPerMinute
        | some interval => if interval < nsPerMinute then nsPerMinute else interval

/-! ## Controllers

Cluster reads are explicit inputs (`Option` = found / not-found); cluster writes
are modelled as applied (a write error only aborts the attempt and re-enqueues,
mutating nothing further).  The deletion/finalizer prologue of each `Reconcile`
is outside the modelled path: it touches metadata only, never status.  The Go
nil-pointer panic in the embedding retry path is modelled as a `none` result,
returned together with the cluster state already written before the panic. -/

/-- Model of `meta.SetStatusCondition`: upsert by type; the transition time of an
existing condition is kept when its status is unchanged. -/
def setStatusCondition (conds : List Condition) (c : Condition) : List Condition :=
  match conds.find? (fun x => x.type = c.type) with
  | none => conds ++ [c]
  | some old =>
      conds.map (fun x =>
        if x.type = c.type then
          if old.status = c.status then { c with lastTransitionTime := old.lastTransitionTime }
          else c
        else x)

/-- The effective retry bound of the embedding controller (lines 305-308):
`spec.retryPolicy.maxRetries`, defaulting to 3 for an absent policy. -/
def effectiveMaxRetries (rp : Option RetryPolicy) : Int :=
  match rp with
  | some p => p.maxRetries
  | none => 3

/-- `initializeStatus` of the EmbeddingJob controller. -/
def embInitializeStatus (job : EmbeddingJob) : EmbeddingJob :=
  { job with status := { job.status with
      phase := EmbeddingJobPhasePending
      message := "EmbeddingJob created, waiting to start" } }

/-- `updateStatusSucceeded` of the EmbeddingJob controller. -/
def embUpdateStatusSucceeded (job : EmbeddingJob) (now : Int) : EmbeddingJob :=
  { job with status := { job.status with
      phase := EmbeddingJobPhaseSucceeded
      message := "Embedding generation completed successfully"
      completionTime := some now
      conditions := setStatusCondition job.status.conditions
        { type := "VectorUpserted", status := true, reason := "JobSucceeded"
          message := "All vectors upserted to vector database", lastTransitionTime := now } } }

/-- `updateStatusFailed` of the EmbeddingJob controller. -/
def embUpdateStatusFailed (job : EmbeddingJob) (msg : String) (now : Int) : EmbeddingJob :=
  { job with status := { job.status with
      phase := EmbeddingJobPhaseFailed
      message := msg
      completionTime := some now } }

/-- `handlePendingPhase` of the EmbeddingJob controller.  `getDocumentSetErr`
is the error of the `Get` on the referenced DocumentSet (`none` = found);
Job creation treats AlreadyExists as success. -/
def embHandlePendingPhase (job : EmbeddingJob) (getDocumentSetErr : Option String)
    (now : Int) : EmbeddingJob × Option ReconcileResult :=
  match getDocumentSetErr with
  | some e => (embUpdateStatusFailed job ("Failed to get DocumentSet: " ++ e) now,
               some emptyResult)
  | none =>
      ({ job with status := { job.status with
          phase := EmbeddingJobPhaseRunning
          message := "Kubernetes Job created, processing embeddings"
          jobRef := job.name ++ "-job"
          startTime := some now
          conditions := setStatusCondition job.status.conditions
            { type := "JobStarted", status := true, reason := "JobCreated"
              message := "Kubernetes Job created successfully", lastTransitionTime := now } } },
       some requeueAfterConst)

/-- The status mutation of the embedding retry branch (lines 311-314), written to
the cluster before the Go code reaches the panicking requeue computation. -/
def embRetryMutation (job : EmbeddingJob) : EmbeddingJob :=
  let maxRetries := effectiveMaxRetries job.spec.retryPolicy
  { job with status := { job.status with
      retryCount := job.status.retryCount + 1
      phase := EmbeddingJobPhasePending
      message := "Retrying (" ++ toString (job.status.retryCount + 1) ++ "/" ++
                 toString maxRetries ++ ")" } }

/-- `handleRunningPhase` of the EmbeddingJob controller.  `k8s = none` models a
NotFound on the underlying Job.  In the retry branch the requeue delay reads
`Spec.RetryPolicy.BackoffSeconds` without a nil check (line 325): with an absent
retry policy this is a nil-pointer dereference, modelled as a `none` result after
the already-performed status write and workload delete. -/
def embHandleRunningPhase (job : EmbeddingJob) (k8s : Option K8sJobStatus)
    (now : Int) : EmbeddingJob × Option ReconcileResult :=
  match k8s with
  | none => (embInitializeStatus job, some requeueNow)
  | some st =>
      if st.succeeded > 0 then (embUpdateStatusSucceeded job now, some emptyResult)
      else if st.failed > 0 then
        if job.status.retryCount < effectiveMaxRetries job.spec.retryPolicy then
          match job.spec.retryPolicy with
          | some rp =>
              (embRetryMutation job, some { requeueAfter := rp.backoffSeconds * nsPerSecond })
          | none => (embRetryMutation job, none)
        else
          (embUpdateStatusFailed job "Job failed after maximum retries" now, some emptyResult)
      else
        ({ job with status := { job.status with
            message := "Job running: " ++ toString st.active ++ " active pods" } },
         some requeueAfterConst)

/-- External observations consumed by one embedding reconciliation. -/
structure EmbedEnv where
  getDocumentSetErr : Option String := none
  k8sJob : Option K8sJobStatus := none
deriving DecidableEq, Repr

/-- The phase dispatch of the EmbeddingJob `Reconcile` (lines 89-105): terminal
phases return immediately with an empty result and no status write. -/
def embedReconcile (job : EmbeddingJob) (env : EmbedEnv) (now : Int) :
    EmbeddingJob × Option ReconcileResult :=
  if job.status.phase = "" then (embInitializeStatus job, some requeueNow)
  else if job.status.phase = EmbeddingJobPhasePending then
    embHandlePendingPhase job env.getDocumentSetErr now
  else if job.status.phase = EmbeddingJobPhaseRunning then
    embHandleRunningPhase job env.k8sJob now
  else if job.status.phase = EmbeddingJobPhaseSucceeded ∨
          job.status.phase = EmbeddingJobPhaseFailed then
    (job, some emptyResult)
  else (embInitializeStatus job, some requeueNow)

/-- `initializeStatus` of the IndexJob controller. -/
def idxInitializeStatus (job : IndexJob) : IndexJob :=
  { job with status := { job.status with
      phase := IndexJobPhasePending
      message := "IndexJob created, waiting to start" } }

/-- `updateStatusFailed` of the IndexJob controller. -/
def idxUpdateStatusFailed (job : IndexJob) (msg : String) (now : Int) : IndexJob :=
  { job with status := { job.status with
      phase := IndexJobPhaseFailed
      message := msg
      completionTime := some now } }

/-- `handlePendingPhase` of the IndexJob controller. -/
def idxHandlePendingPhase (job : IndexJob) (getDocumentSetErr : Option String)
    (now : Int) : IndexJob × Option ReconcileResult :=
  match getDocumentSetErr with
  | some e => (idxUpdateStatusFailed job ("Failed to get DocumentSet: " ++ e) now,
               some emptyResult)
  | none =>
      ({ job with status := { job.status with
          phase := IndexJobPhaseBuilding
          message := "Index building started"
          jobRef := job.name ++ "-job"
          startTime := some now
          conditions := setStatusCondition job.status.conditions
            { type := "IndexCreated", status := false, reason := "BuildingIndex"
              message := "Index build in progress", lastTransitionTime := now } } },
       some requeueAfterConst)

/-- `handleJobSucceeded` of the IndexJob controller: records the alias swap when a
target alias is set, then marks the job Succeeded. -/
def idxHandleJobSucceeded (job : IndexJob) (now : Int) : IndexJob × Option ReconcileResult :=
  let conds1 := setStatusCondition job.status.conditions
    { type := "IndexCreated", status := true, reason := "IndexBuilt"
      message := "Index built successfully", lastTransitionTime := now }
  let st1 :=
    if job.spec.targetAlias ≠ "" then
      { job.status with
        phase := IndexJobPhaseOptimizing
        message := "Index built, performing alias swap"
        conditions := setStatusCondition conds1
          { type := "AliasSwapped", status := true, reason := "AliasSwapped"
            message := "Alias " ++ job.spec.targetAlias ++ " switched to collection " ++
                       job.spec.vectorDB.collection
            lastTransitionTime := now }
        aliasSwapped := true }
    else { job.status with conditions := conds1 }
  let st2 := { st1 with
    phase := IndexJobPhaseSucceeded
    message := "Index building completed successfully"
    completionTime := some now
    conditions := setStatusCondition st1.conditions
      { type := "IndexOptimized", status := true, reason := "IndexOptimized"
        message := "Index optimized and ready for queries", lastTransitionTime := now } }
  ({ job with status := st2 }, some emptyResult)

/-- `handleBuildingPhase` of the IndexJob controller: unlike the embedding
controller, the retry backoff read is nil-guarded (lines 319-322). -/
def idxHandleBuildingPhase (job : IndexJob) (k8s : Option K8sJobStatus)
    (now : Int) : IndexJob × Option ReconcileResult :=
  match k8s with
  | none => (idxInitializeStatus job, some requeueNow)
  | some st =>
      if st.succeeded > 0 then idxHandleJobSucceeded job now
      else if st.failed > 0 then
        if job.status.retryCount < effectiveMaxRetries job.spec.retryPolicy then
          let maxRetries := effectiveMaxRetries job.spec.retryPolicy
          let job' := { job with status := { job.status with
            retryCount := job.status.retryCount + 1
            phase := IndexJobPhasePending
            message := "Retrying (" ++ toString (job.status.retryCount + 1) ++ "/" ++
                       toString maxRetries ++ ")" } }
          let backoff :=
            match job.spec.retryPolicy with
            | some rp => rp.backoffSeconds
            | none => 30
          (job', some { requeueAfter := backoff * nsPerSecond })
        else
          (idxUpdateStatusFailed job "Job failed after maximum retries" now, some emptyResult)
      else
        ({ job with status := { job.status with
            message := "Index build running: " ++ toString st.active ++ " active pods" } },
         some requeueAfterConst)

/-- External observations consumed by one index reconciliation. -/
structure IndexEnv where
  getDocumentSetErr : Option String := none
  k8sJob : Option K8sJobStatus := none
deriving DecidableEq, Repr

/-- The phase dispatch of the IndexJob `Reconcile` (lines 93-105). -/
def indexReconcile (job : IndexJob) (env : IndexEnv) (now : Int) :
    IndexJob × Option ReconcileResult :=
  if job.status.phase = "" then (idxInitializeStatus job, some requeueNow)
  else if job.status.phase = IndexJobPhasePending then
    idxHandlePendingPhase job env.getDocumentSetErr now
  else if job.status.phase = IndexJobPhaseBuilding then
    idxHandleBuildingPhase job env.k8sJob now
  else if job.status.phase = IndexJobPhaseOptimizing then
    idxHandleJobSucceeded job now
  else if job.status.phase = IndexJobPhaseSucceeded ∨
          job.status.phase = IndexJobPhaseFailed then
    (job, some emptyResult)
  else (idxInitializeStatus job, some requeueNow)

/-- `initializeStatus` of the DocumentSet controller. -/
def dsInitializeStatus (ds : DocumentSet) (now : Int) : DocumentSet :=
  { ds with status := { ds.status with
      phase := DocumentSetPhasePending
      message := "DocumentSet created, waiting for processing"
      observedGeneration := ds.generation
      lastUpdateTime := some now } }

/-- `handleReadyPhase` of the DocumentSet controller (lines 784-795): resets to
Pending on a generation change, otherwise returns an empty result — it consults
neither `ShouldSync` nor `CheckSourceChanges` and schedules no requeue. -/
def handleReadyPhase (ds : DocumentSet) (now : Int) : DocumentSet × ReconcileResult :=
  if ds.generation ≠ ds.status.observedGeneration then
    (dsInitializeStatus ds now, requeueNow)
  else
    (ds, emptyResult)

/-- Equality of `Except` results is decidable componentwise. -/
instance {e a : Type} [DecidableEq e] [DecidableEq a] : DecidableEq (Except e a) := fun x y =>
  match x, y with
  | .ok u, .ok v => if h : u = v then .isTrue (by simp [h]) else .isFalse (by simp [h])
  | .error u, .error v => if h : u = v then .isTrue (by simp [h]) else .isFalse (by simp [h])
  | .ok _, .error _ => .isFalse (by simp)
  | .error _, .ok _ => .isFalse (by simp)

/-! ## Concrete fixtures -/

/-- A fixed chunking/embedding/index configuration for concrete test resources. -/
def mkDocSpec (src : SourceSpec) (pol : Option SyncPolicy) : DocumentSetSpec :=
  { source := src
    chunking := { size := 512, overlap := 100, format := "text" }
    embedding := { model := "bge-large-en", device := "cpu", batchSize := 16, autoRetry := true }
    index := { vectorDB := "qdrant", collection := "docs", aliasName := "docs_prod", recreate := false }
    syncPolicy := pol }

/-- An auto sync policy with the given interval string. -/
def mkAutoPolicy (interval : String) : SyncPolicy :=
  { mode := "auto", interval := interval, triggerOn := "contentHash"
    incrementalSync := true, maxConcurrentSyncs := 1, pauseSync := false }

/-- C1 fixture: a Ready DocumentSet whose generation is already observed and whose
auto sync policy is long overdue (the last source check lies an hour back). -/
def dsReadyC1 : DocumentSet :=
  { name := "product-docs", nspace := "default", generation := 2
    spec := mkDocSpec { type := "s3", uri := "s3://company-docs/manuals/", secretRef := none }
                      (some (mkAutoPolicy "1m"))
    status := { phase := "Ready", observedGeneration := 2
                currentCollection := "docs_20260101000000"
                lastSourceHash := "0123456789abcdef"
                lastSourceCheckTime := some 0 } }

/-- C2 fixture: a Running embedding task without a retry policy. -/
def jobC2 : EmbeddingJob :=
  { name := "product-docs-embedding-1", nspace := "default"
    spec := { documentSet := "product-docs", embeddingModel := "bge-large-en"
              vectorDB := { type := "qdrant", collection := "docs_20260101000000"
                            endpoint := "", secretRef := none }
              retryPolicy := none }
    status := { phase := "Running", retryCount := 0, jobRef := "product-docs-embedding-1-job" } }

/-- C2 fixture: the underlying workload reports one failed pod. -/
def envC2 : EmbedEnv := { k8sJob := some { failed := 1 } }

/-- C3 fixture: a Git DocumentSet naming an explicit branch, with no prior status. -/
def dsGitC3 : DocumentSet :=
  { name := "wiki-docs", nspace := "default", generation := 1
    spec := mkDocSpec { type := "git", uri := "https://example.com/repo.git#dev", secretRef := none }
                      (some (mkAutoPolicy "5m"))
    status := {} }

/-- C4 fixture: an HTTP DocumentSet with no prior hash. -/
def dsHttpC4 : DocumentSet :=
  { name := "http-docs", nspace := "default", generation := 1
    spec := mkDocSpec { type := "http", uri := "https://docs.example.com/handbook.pdf", secretRef := none }
                      (some (mkAutoPolicy "5m"))
    status := {} }

/-- C4 fixture: a 204 No Content response — a 2xx status. -/
def resp204 : HTTPResponse :=
  { statusCode := 204, etag := "W/\"v7\"", lastModified := "Tue, 06 Jan 2026 10:00:00 GMT"
    contentLength := 0 }

/-- C5 fixture: auto policy with a 30-second interval, last checked at time 0. -/
def dsC5 : DocumentSet :=
  { name := "fast-sync", nspace := "default", generation := 1
    spec := mkDocSpec { type := "s3", uri := "s3://bucket/p/", secretRef := none }
                      (some (mkAutoPolicy "30s"))
    status := { phase := "Ready", observedGeneration := 1
                lastSourceHash := "deadbeef", lastSourceCheckTime := some 0 } }

/-- C7 fixture: a Git DocumentSet with no `#branch` suffix (default branch). -/
def dsGitC7 : DocumentSet :=
  { name := "kb-git", nspace := "default", generation := 1
    spec := mkDocSpec { type := "git", uri := "git://host/wiki.git", secretRef := none }
                      (some (mkAutoPolicy "5m"))
    status := { phase := "Ready", observedGeneration := 1, lastSourceHash := "aaaa" } }

/-! ## Claim theorems: code-bug evaluations and counterexamples -/

/-- C1: for a Ready DocumentSet whose generation equals `observedGeneration` and
whose auto sync policy is overdue, `handleReadyPhase` returns the resource
*unchanged* with the empty reconcile result: no requeue is scheduled and the
Source Watcher (`ShouldSync` / `CheckSourceChanges`) is never consulted, so the
pipeline never returns to Pending on a source change.  (`ShouldSync` itself
would have permitted the sync at this instant.) -/
theorem c1_ready_handler_ignores_source_watcher :
    handleReadyPhase dsReadyC1 (3600 * nsPerSecond) = (dsReadyC1, emptyResult) ∧
    (handleReadyPhase dsReadyC1 (3600 * nsPerSecond)).2.requeueAfter = 0 ∧
    (handleReadyPhase dsReadyC1 (3600 * nsPerSecond)).1.status.phase = "Ready" ∧
    (ShouldSync dsReadyC1 (3600 * nsPerSecond)).1 = true := by
  refine ⟨by decide, by decide, by decide, by decide⟩

/-- C2: for a Running embed task with `spec.retryPolicy` absent, a failed workload
and `retryCount 0 < 3` (the default), the handler increments the retry count and
resets the phase, but then dereferences the nil `Spec.RetryPolicy` to compute the
backoff (line 325) and panics: the reconciliation produces no result instead of
requeueing after the default 30 seconds. -/
theorem c2_running_handler_nil_retry_policy_panics :
    (embedReconcile jobC2 envC2 0).2 = none ∧
    (embedReconcile jobC2 envC2 0).1.status.retryCount = 1 ∧
    (embedReconcile jobC2 envC2 0).1.status.phase = "Pending" ∧
    jobC2.spec.retryPolicy = none ∧
    jobC2.status.retryCount < effectiveMaxRetries jobC2.spec.retryPolicy := by
  refine ⟨by decide, by decide, by decide, by decide, by decide⟩

/-- C3: `checkGitSource` parses `<repo>#<branch>` (here branch `dev`), but its
digest is `SHA256(repo ∥ branch ∥ hour-bucket-of-the-clock)` — a function of the
wall clock, not of any remote tip commit — and `sourceMetadata.gitCommitHash` is
merely the first 12 hex characters of that placeholder digest: the same
unchanged repository yields different digests in different hours. -/
theorem c3_git_digest_is_time_bucketed_placeholder :
    (checkGitSource dsGitC3 "2026-01-02-03").newHash =
      sha256Hex ("https://example.com/repo.git" ++ "dev" ++ "2026-01-02-03") ∧
    (checkGitSource dsGitC3 "2026-01-02-03").newMetadata =
      some { gitBranch := "dev"
             gitCommitHash :=
               strTake (sha256Hex ("https://example.com/repo.git" ++ "dev" ++ "2026-01-02-03")) 12 } ∧
    (checkGitSource dsGitC3 "2026-01-02-03").newHash ≠
      (checkGitSource dsGitC3 "2026-01-02-04").newHash := by
  refine ⟨by decide, by decide, by decide⟩

/-- C4 counterexample: a 204 No Content response has a 2xx status, yet
`checkHTTPSource` rejects it as a check failure — the code accepts exactly
status 200, not "any 2xx". -/
theorem c4_counterexample_2xx_rejected :
    checkHTTPSource dsHttpC4 (.ok resp204) = .error "HTTP HEAD returned status 204" ∧
    (200 : Int) ≤ resp204.statusCode ∧ resp204.statusCode < 300 := by
  refine ⟨by decide, by decide, by decide⟩

/-- The claim's rate-limit predicate stated in its own words (C5): sync permitted
iff the policy exists, is unpaused and auto, and the elapsed time reaches the
interval parsed with default 5 minutes *and a floor of 1 minute*. -/
def shouldSyncClaimPredicate (ds : DocumentSet) (nowNs : Int) : Bool :=
  match ds.spec.syncPolicy with
  | none => false
  | some policy =>
      !policy.pauseSync && policy.mode == "auto" &&
        (match ds.status.lastSourceCheckTime with
         | some t =>
             let parsed := (goParseDuration policy.interval).getD (5 * nsPerMinute)
             let interval := if parsed < nsPerMinute then nsPerMinute else parsed
             decide (nowNs - t ≥ interval)
         | none => true)

/-- C5 counterexample: with interval "30s" and 45 s elapsed, `ShouldSync` permits
the sync although the claim's floored interval (1 minute) has not elapsed — the
1-minute floor is absent from `ShouldSync`. -/
theorem c5_counterexample_no_floor :
    (ShouldSync dsC5 (45 * nsPerSecond)).1 = true ∧
    shouldSyncClaimPredicate dsC5 (45 * nsPerSecond) = false := by
  refine ⟨by decide, by decide⟩

/-- C7 counterexample: an unchanged Git source checked in two successive hours
yields two different `newHash` values — the Git digest is not deterministic
across invocations. -/
theorem c7_counterexample_git_hash_time_dependent :
    (checkGitSource dsGitC7 "2025-03-01-10").newHash ≠
      (checkGitSource dsGitC7 "2025-03-01-11").newHash := by
  decide

/-- C4 witness fixture: a 200 OK response. -/
def resp200 : HTTPResponse :=
  { statusCode := 200, etag := "\"abc123\"", lastModified := "Mon, 05 Jan 2026 09:00:00 GMT"
    contentLength := 42 }

/-- C4 (amended): the HTTP check issues a HEAD (metadata-only) request with a
30-second timeout and optional bearer/basic auth; it returns a result exactly
when the response status is 200 (any other status, 2xx included, is a check
failure), and on success `newHash = SHA256(ETag ∥ LastModified ∥ ContentLength)`
with a detected change counted as exactly one changed file. -/
theorem c4_http_metadata_check (ds : DocumentSet)
    (secret : Option (List (String × String))) (r : HTTPResponse) :
    (buildHTTPRequest ds secret).method = "HEAD" ∧
    (buildHTTPRequest ds secret).timeoutSeconds = 30 ∧
    ((∃ res, checkHTTPSource ds (.ok r) = .ok res) ↔ r.statusCode = 200) ∧
    (∀ res, checkHTTPSource ds (.ok r) = .ok res →
      res.newHash = sha256Hex (r.etag ++ r.lastModified ++ toString r.contentLength) ∧
      (ds.status.lastSourceHash ≠ "" → ds.status.lastSourceHash ≠ res.newHash →
        res.changed = true ∧ res.filesChanged = 1) ∧
      (ds.status.lastSourceHash = "" → res.changed = true ∧ res.filesAdded = 1)) := by
  refine ⟨rfl, rfl, ?_, ?_⟩
  · constructor
    · rintro ⟨res, hres⟩
      by_contra hs
      simp only [checkHTTPSource, if_pos hs] at hres
      exact Except.noConfusion hres
    · intro hs
      simp only [checkHTTPSource]
      rw [if_neg (by simp [hs])]
      by_cases h1 : ds.status.lastSourceHash ≠ "" ∧
          ds.status.lastSourceHash ≠ sha256Hex (r.etag ++ r.lastModified ++ toString r.contentLength)
      · rw [if_pos h1]; exact ⟨_, rfl⟩
      · rw [if_neg h1]
        by_cases h2 : ds.status.lastSourceHash = ""
        · rw [if_pos h2]; exact ⟨_, rfl⟩
        · rw [if_neg h2]; exact ⟨_, rfl⟩
  · intro res hres
    by_cases hs : r.statusCode = 200
    · simp only [checkHTTPSource] at hres
      rw [if_neg (by simp [hs])] at hres
      by_cases h1 : ds.status.lastSourceHash ≠ "" ∧
          ds.status.lastSourceHash ≠ sha256Hex (r.etag ++ r.lastModified ++ toString r.contentLength)
      · rw [if_pos h1] at hres
        cases hres
        exact ⟨rfl, fun _ _ => ⟨rfl, rfl⟩, fun h => absurd h h1.1⟩
      · rw [if_neg h1] at hres
        by_cases h2 : ds.status.lastSourceHash = ""
        · rw [if_pos h2] at hres
          cases hres
          exact ⟨rfl, fun h _ => absurd h2 h, fun _ => ⟨rfl, rfl⟩⟩
        · rw [if_neg h2] at hres
          cases hres
          exact ⟨rfl, fun hne hnh => absurd ⟨hne, hnh⟩ h1, fun h => absurd h h2⟩
    · simp only [checkHTTPSource, if_pos hs] at hres
      exact Except.noConfusion hres

/-- C4 witness: at a concrete 200 response with no prior hash, the check succeeds,
hashes the metadata triple, and reports the single file as added. -/
theorem c4_http_metadata_check_witness :
    ∃ res, checkHTTPSource dsHttpC4 (.ok resp200) = .ok res ∧
      res.newHash = sha256Hex (resp200.etag ++ resp200.lastModified ++
        toString resp200.contentLength) ∧
      res.changed = true ∧ res.filesAdded = 1 := by
  obtain ⟨res, hres⟩ :=
    (c4_http_metadata_check dsHttpC4 none resp200).2.2.1.mpr (by decide)
  have h4 := (c4_http_metadata_check dsHttpC4 none resp200).2.2.2 res hres
  exact ⟨res, hres, h4.1, (h4.2.2 (by decide)).1, (h4.2.2 (by decide)).2⟩

/-- The unmounted branch of `checkPVCSource`, evaluated: the walk input is
irrelevant and the result is determined by the URI and `lastSourceHash` alone. -/
theorem checkPVCSource_unmounted (ds : DocumentSet) (walk : Except String (List PVCFile))
    (h : strStartsWith ds.spec.source.uri "pvc://" = true) :
    checkPVCSource ds false walk = .ok
      { changed := decide (ds.status.lastSourceHash = "")
        newHash := sha256Hex ((splitN2 '/' (strDrop ds.spec.source.uri 6)).1 ++
          ((splitN2 '/' (strDrop ds.spec.source.uri 6)).2.getD ""))
        newMetadata := some { fileCount := 0 } } := by
  unfold checkPVCSource
  rw [if_neg (by simp [h])]
  rw [if_pos rfl]
  by_cases hl : ds.status.lastSourceHash = ""
  · rw [if_pos hl]; simp [hl]
  · rw [if_neg hl]; simp [hl]

/-- C10: for a PVC source whose local mount path does not exist, the check
succeeds with `newHash = SHA256(pvcName ∥ subPath)` — the same result for every
possible filesystem content — a metadata file count of 0, and `changed = true`
exactly when `status.lastSourceHash` is empty; an unmounted PVC source therefore
never reports a change after its first successful check. -/
theorem c10_pvc_unmounted_constant_hash (ds : DocumentSet)
    (walk walk' : Except String (List PVCFile))
    (h : strStartsWith ds.spec.source.uri "pvc://" = true) :
    ∃ res, checkPVCSource ds false walk = .ok res ∧
      checkPVCSource ds false walk' = .ok res ∧
      res.newHash = sha256Hex ((splitN2 '/' (strDrop ds.spec.source.uri 6)).1 ++
        ((splitN2 '/' (strDrop ds.spec.source.uri 6)).2.getD "")) ∧
      res.newMetadata = some { fileCount := 0 } ∧
    (res.changed = true ↔ ds.status.lastSourceHash = "") := by
  refine ⟨_, checkPVCSource_unmounted ds walk h, checkPVCSource_unmounted ds walk' h,
    rfl, rfl, ?_⟩
  simp

/-- C10 witness fixture: an unmounted PVC DocumentSet that has already recorded a
source hash. -/
def dsPvcC10 : DocumentSet :=
  { name := "pvc-docs", nspace := "default", generation := 1
    spec := mkDocSpec { type := "pvc", uri := "pvc://models/docs/manuals", secretRef := none }
                      (some (mkAutoPolicy "5m"))
    status := { phase := "Ready", observedGeneration := 1
                lastSourceHash := "ffff0000ffff0000" } }

/-- C10 witness: at the concrete unmounted PVC resource with a non-empty recorded
hash, the check succeeds with the constant hash and reports no change, for two
different (irrelevant) filesystem contents. -/
theorem c10_pvc_unmounted_constant_hash_witness :
    ∃ res, checkPVCSource dsPvcC10 false (.ok []) = .ok res ∧
      checkPVCSource dsPvcC10 false
        (.ok [{ relPath := "a.md", size := 3, mtimeUnix := 9, contentMD5 := none }]) = .ok res ∧
      res.newHash = sha256Hex ((splitN2 '/' (strDrop dsPvcC10.spec.source.uri 6)).1 ++
        ((splitN2 '/' (strDrop dsPvcC10.spec.source.uri 6)).2.getD "")) ∧
      res.newMetadata = some { fileCount := 0 } ∧
      (res.changed = true ↔ dsPvcC10.status.lastSourceHash = "") :=
  c10_pvc_unmounted_constant_hash dsPvcC10 (.ok [])
    (.ok [{ relPath := "a.md", size := 3, mtimeUnix := 9, contentMD5 := none }]) (by decide)

/-- The amended rate-limit predicate in the claim's (corrected) words: sync
permitted iff the policy exists, is unpaused and auto, and either no previous
check time is recorded or the elapsed time reaches the interval parsed with
default 5 minutes on absent or malformed strings — with *no* 1-minute floor. -/
def shouldSyncAmendedPredicate (ds : DocumentSet) (nowNs : Int) : Bool :=
  match ds.spec.syncPolicy with
  | none => false
  | some policy =>
      !policy.pauseSync && policy.mode == "auto" &&
        (match ds.status.lastSourceCheckTime with
         | some t => decide (nowNs - t ≥ (goParseDuration policy.interval).getD (5 * nsPerMinute))
         | none => true)

/-- C5 (amended): `ShouldSync` permits a sync exactly under the amended predicate
(no 1-minute floor; a missing `lastSourceCheckTime` permits the sync); the
reason is `intervalReached` exactly on a permitted sync (every deferral carries a
distinct reason); and the 1-minute floor lives in `GetSyncInterval`, which always
returns at least one minute and defaults to 5 minutes. -/
theorem c5_should_sync_amended (ds : DocumentSet) (nowNs : Int) :
    (ShouldSync ds nowNs).1 = shouldSyncAmendedPredicate ds nowNs ∧
    ((ShouldSync ds nowNs).2 = SyncDecisionReason.intervalReached ↔
      (ShouldSync ds nowNs).1 = true) ∧
    GetSyncInterval ds ≥ nsPerMinute := by
  refine ⟨?_, ?_, ?_⟩
  · unfold ShouldSync shouldSyncAmendedPredicate
    rcases ds.spec.syncPolicy with _ | policy
    · rfl
    · rcases ds.status.lastSourceCheckTime with _ | t
      · by_cases hp : policy.pauseSync <;> by_cases hm : policy.mode = "auto" <;>
          simp [hp, hm, SyncModeAuto]
      · by_cases hp : policy.pauseSync <;> by_cases hm : policy.mode = "auto" <;>
          by_cases hlt : nowNs - t < (goParseDuration policy.interval).getD (5 * nsPerMinute) <;>
          simp [hp, hm, hlt, SyncModeAuto] <;> omega
  · unfold ShouldSync
    rcases ds.spec.syncPolicy with _ | policy
    · simp
    · rcases ds.status.lastSourceCheckTime with _ | t
      · by_cases hp : policy.pauseSync <;> by_cases hm : policy.mode = "auto" <;>
          simp [hp, hm, SyncModeAuto]
      · by_cases hp : policy.pauseSync <;> by_cases hm : policy.mode = "auto" <;>
          by_cases hlt : nowNs - t < (goParseDuration policy.interval).getD (5 * nsPerMinute) <;>
          simp [hp, hm, hlt, SyncModeAuto]
  · unfold GetSyncInterval
    rcases ds.spec.syncPolicy with _ | policy
    · simp [nsPerMinute, nsPerSecond]
    · by_cases hi : policy.interval = ""
      · simp [hi, nsPerMinute, nsPerSecond]
      · rcases hd : goParseDuration policy.interval with _ | v
        · simp [hi, hd, nsPerMinute, nsPerSecond]
        · by_cases hlt : v < nsPerMinute <;>
            simp [hi, hd, hlt, nsPerMinute, nsPerSecond] <;> omega

/-! ## Association-list and sorting lemmas -/

/-- A key looks up to `none` exactly when it is absent from the key column. -/
theorem lookup_eq_none_iff (k : String) (l : List (String × String)) :
    List.lookup k l = none ↔ k ∉ l.map Prod.fst := by
  induction l with
  | nil => simp
  | cons p t ih =>
      by_cases h : k = p.1
      · subst h
        simp [List.lookup]
      · have hb : (k == p.1) = false := beq_eq_false_iff_ne.mpr h
        simp [List.lookup, hb, ih, h]

/-- With distinct keys, membership determines the lookup result. -/
theorem lookup_eq_some_of_mem {l : List (String × String)} {k : String} {v : String}
    (hnd : (l.map Prod.fst).Nodup) (hm : (k, v) ∈ l) : List.lookup k l = some v := by
  induction l with
  | nil => cases hm
  | cons p t ih =>
      rcases List.mem_cons.mp hm with rfl | hmem
      · simp [List.lookup]
      · have hk : k ≠ p.1 := by
          intro hk
          have hmm : k ∈ t.map Prod.fst := List.mem_map.mpr ⟨(k, v), hmem, rfl⟩
          rw [hk] at hmm
          exact (List.nodup_cons.mp (by simpa using hnd)).1 hmm
        have hb : (k == p.1) = false := beq_eq_false_iff_ne.mpr hk
        simp only [List.lookup, hb]
        exact ih (List.nodup_cons.mp (by simpa using hnd)).2 hmem

/-- A successful lookup witnesses membership. -/
theorem mem_of_lookup_eq_some {l : List (String × String)} {k : String} {v : String}
    (h : List.lookup k l = some v) : (k, v) ∈ l := by
  induction l with
  | nil => simp [List.lookup] at h
  | cons p t ih =>
      by_cases hk : k = p.1
      · subst hk
        simp [List.lookup] at h
        simp [← h]
      · have hb : (k == p.1) = false := beq_eq_false_iff_ne.mpr hk
        simp only [List.lookup, hb] at h
        exact List.mem_cons_of_mem _ (ih h)

/-- Lookups agree across a permutation with distinct keys (a Go map has no
intrinsic order; any listing of its entries is as good as any other). -/
theorem lookup_perm_nodup {l₁ l₂ : List (String × String)}
    (p : l₁.Perm l₂) (nd : (l₁.map Prod.fst).Nodup) (k : String) :
    List.lookup k l₁ = List.lookup k l₂ := by
  cases hl : List.lookup k l₁ with
  | some v => exact (lookup_eq_some_of_mem ((p.map Prod.fst).nodup_iff.mp nd)
      (p.subset (mem_of_lookup_eq_some hl))).symm
  | none =>
      cases hr : List.lookup k l₂ with
      | none => rfl
      | some w =>
          exact absurd (lookup_eq_some_of_mem nd (p.symm.subset (mem_of_lookup_eq_some hr)))
            (by simp [hl])

/-- A permutation of strings has a unique sorted arrangement. -/
theorem sortStrings_perm {l₁ l₂ : List String} (h : l₁.Perm l₂) :
    sortStrings l₁ = sortStrings l₂ :=
  List.eq_of_perm_of_sorted
    ((List.perm_insertionSort _ l₁).trans (h.trans (List.perm_insertionSort _ l₂).symm))
    (List.sorted_insertionSort _ l₁) (List.sorted_insertionSort _ l₂)

/-- `sort.Strings` applied to key/digest pairs by key (the spec's "for key in
sorted order" with each key's own digest). -/
def sortPairsByKey (l : List (String × String)) : List (String × String) :=
  List.insertionSort (fun a b => a.1 ≤ b.1) l

/-- Inserting a pair by key, then projecting, is inserting the key. -/
theorem map_fst_orderedInsert (p : String × String) (l : List (String × String)) :
    (List.orderedInsert (fun a b => a.1 ≤ b.1) p l).map Prod.fst =
      List.orderedInsert (· ≤ ·) p.1 (l.map Prod.fst) := by
  induction l with
  | nil => rfl
  | cons q t ih =>
      simp only [List.orderedInsert, List.map_cons]
      by_cases h : p.1 ≤ q.1
      · simp only [if_pos h, List.map_cons]
      · simp only [if_neg h, List.map_cons, ih]

/-- Sorting pairs by key, then projecting, is sorting the keys. -/
theorem map_fst_sortPairsByKey (l : List (String × String)) :
    (sortPairsByKey l).map Prod.fst = sortStrings (l.map Prod.fst) := by
  unfold sortPairsByKey sortStrings
  induction l with
  | nil => rfl
  | cons p t ih =>
      simp only [List.insertionSort, List.map_cons]
      rw [map_fst_orderedInsert, ih]

/-- The combined digest, computed by sorted-key lookups, equals the digest of the
key-sorted pair list — provided the keys are distinct. -/
theorem combineFileHashes_eq_sorted_pairs (m : List (String × String))
    (hnd : (m.map Prod.fst).Nodup) :
    combineFileHashes (m.map Prod.fst) m =
      sha256Hex (String.join ((sortPairsByKey m).map (fun p => p.1 ++ p.2))) := by
  unfold combineFileHashes lookupStr
  have h2 : ∀ p ∈ sortPairsByKey m, List.lookup p.1 m = some p.2 := fun p hp =>
    lookup_eq_some_of_mem hnd ((List.perm_insertionSort _ m).subset hp)
  have : (sortStrings (m.map Prod.fst)).map (fun f => f ++ (List.lookup f m).getD "") =
      (sortPairsByKey m).map (fun p => p.1 ++ p.2) := by
    rw [← map_fst_sortPairsByKey, List.map_map]
    exact List.map_congr_left (fun p hp => by simp [h2 p hp])
  rw [this]

/-- The combined digest is invariant under permuting the pair list (distinct keys). -/
theorem combineFileHashes_perm {m₁ m₂ : List (String × String)}
    (hp : m₁.Perm m₂) (hnd : (m₁.map Prod.fst).Nodup) :
    combineFileHashes (m₁.map Prod.fst) m₁ = combineFileHashes (m₂.map Prod.fst) m₂ := by
  unfold combineFileHashes lookupStr
  rw [sortStrings_perm (hp.map Prod.fst)]
  have : ∀ f : String, List.lookup f m₁ = List.lookup f m₂ := lookup_perm_nodup hp hnd
  simp only [this]

/-- `applyChangeDetermination` never touches `newHash`. -/
theorem applyChangeDetermination_newHash (ds : DocumentSet) (c : Int)
    (fh : List (String × String)) (r : SourceChangeResult) :
    (applyChangeDetermination ds c fh r).newHash = r.newHash := by
  unfold applyChangeDetermination
  repeat' split
  all_goals rfl

/-- `applyChangeDetermination` never touches `newMetadata`. -/
theorem applyChangeDetermination_newMetadata (ds : DocumentSet) (c : Int)
    (fh : List (String × String)) (r : SourceChangeResult) :
    (applyChangeDetermination ds c fh r).newMetadata = r.newMetadata := by
  unfold applyChangeDetermination
  repeat' split
  all_goals rfl

/-- Listing-order invariance of the combined digest, for any record type carrying
a name and a per-file digest. -/
theorem combineFileHashes_perm_records {α : Type} (key dig : α → String)
    {k1 k2 : List α} (hp : k1.Perm k2) (hnd : (k1.map key).Nodup) :
    combineFileHashes (k1.map key) (k1.map (fun o => (key o, dig o))) =
      combineFileHashes (k2.map key) (k2.map (fun o => (key o, dig o))) := by
  have hfst1 : (k1.map (fun o => (key o, dig o))).map Prod.fst = k1.map key := by
    rw [List.map_map]; rfl
  have hfst2 : (k2.map (fun o => (key o, dig o))).map Prod.fst = k2.map key := by
    rw [List.map_map]; rfl
  have h := combineFileHashes_perm (hp.map (fun o => (key o, dig o)))
    (by rw [hfst1]; exact hnd)
  rw [hfst1, hfst2] at h
  exact h

/-- C7 (amended): for S3 and PVC sources the computed `newHash` is invariant under
the order in which the listing or filesystem walk enumerates the files — the
file names are sorted before hashing — so two successive invocations over an
unchanged source produce the same digest.  (The Git digest is *not* invariant
across invocations; see the counterexample.) -/
theorem c7_sorted_hash_order_invariance (ds : DocumentSet) (l1 l2 : List S3Object)
    (f1 f2 : List PVCFile) (hl : l1.Perm l2) (hlk : (l1.map S3Object.key).Nodup)
    (hf : f1.Perm f2) (hfk : (f1.map PVCFile.relPath).Nodup) :
    (checkS3Source ds (.ok l1)).map SourceChangeResult.newHash =
      (checkS3Source ds (.ok l2)).map SourceChangeResult.newHash ∧
    (checkPVCSource ds true (.ok f1)).map SourceChangeResult.newHash =
      (checkPVCSource ds true (.ok f2)).map SourceChangeResult.newHash := by
  constructor
  · unfold checkS3Source
    by_cases hu : ¬ strStartsWith ds.spec.source.uri "s3://"
    · rw [if_pos hu, if_pos hu]
    · rw [if_neg hu, if_neg hu]
      simp only [Except.map, applyChangeDetermination_newHash]
      have hkept : (l1.filter (fun o => ¬ strEndsWith o.key "/")).Perm
          (l2.filter (fun o => ¬ strEndsWith o.key "/")) := hl.filter _
      have hknd : ((l1.filter (fun o => ¬ strEndsWith o.key "/")).map S3Object.key).Nodup :=
        hlk.sublist ((List.filter_sublist l1).map S3Object.key)
      have := combineFileHashes_perm_records S3Object.key
        (fun o => trimQuotes o.eTag) hkept hknd
      simp only [this]
  · unfold checkPVCSource
    by_cases hu : ¬ strStartsWith ds.spec.source.uri "pvc://"
    · rw [if_pos hu, if_pos hu]
    · rw [if_neg hu, if_neg hu]
      rw [if_neg (by simp), if_neg (by simp)]
      simp only [Except.map, applyChangeDetermination_newHash]
      have := combineFileHashes_perm_records PVCFile.relPath pvcFileHash hf hfk
      simp only [this]

/-- C7 witness fixtures: two enumeration orders of the same two S3 objects, and of
the same two PVC files. -/
def dsS3C7 : DocumentSet :=
  { name := "s3-docs", nspace := "default", generation := 1
    spec := mkDocSpec { type := "s3", uri := "s3://b/p/", secretRef := none }
                      (some (mkAutoPolicy "1m"))
    status := { phase := "Ready", observedGeneration := 1, lastSourceHash := "cafe" } }

def dsPvcC7 : DocumentSet :=
  { name := "pvc-docs-c7", nspace := "default", generation := 1
    spec := mkDocSpec { type := "pvc", uri := "pvc://models/kb", secretRef := none }
                      (some (mkAutoPolicy "1m"))
    status := { phase := "Ready", observedGeneration := 1, lastSourceHash := "cafe" } }

def s3ListA : List S3Object :=
  [{ key := "p/a.md", eTag := "\"x\"", size := 1 }, { key := "p/b.md", eTag := "\"y\"", size := 2 }]

def s3ListB : List S3Object :=
  [{ key := "p/b.md", eTag := "\"y\"", size := 2 }, { key := "p/a.md", eTag := "\"x\"", size := 1 }]

def pvcListA : List PVCFile :=
  [{ relPath := "a.md", size := 1, mtimeUnix := 5, contentMD5 := some "m1" },
   { relPath := "b.md", size := 2, mtimeUnix := 6, contentMD5 := none }]

def pvcListB : List PVCFile :=
  [{ relPath := "b.md", size := 2, mtimeUnix := 6, contentMD5 := none },
   { relPath := "a.md", size := 1, mtimeUnix := 5, contentMD5 := some "m1" }]

/-- C7 witness: the S3 digest of a two-object listing and the PVC digest of a
two-file walk are unchanged when the enumeration order is reversed. -/
theorem c7_sorted_hash_order_invariance_witness :
    (checkS3Source dsS3C7 (.ok s3ListA)).map SourceChangeResult.newHash =
      (checkS3Source dsS3C7 (.ok s3ListB)).map SourceChangeResult.newHash ∧
    (checkPVCSource dsPvcC7 true (.ok pvcListA)).map SourceChangeResult.newHash =
      (checkPVCSource dsPvcC7 true (.ok pvcListB)).map SourceChangeResult.newHash :=
  ⟨(c7_sorted_hash_order_invariance dsS3C7 s3ListA s3ListB pvcListA pvcListB
      (by decide) (by decide) (by decide) (by decide)).1,
   (c7_sorted_hash_order_invariance dsPvcC7 s3ListA s3ListB pvcListA pvcListB
      (by decide) (by decide) (by decide) (by decide)).2⟩

/-- The S3 digest and metadata as the spec phrases them (C8): keep the objects
whose key does not end in `/`, record each key's ETag with surrounding quotation
marks stripped, and hash `key ∥ eTag` over the pairs in key-sorted order. -/
def s3DigestSpec (objects : List S3Object) : String :=
  let entries := (objects.filter (fun o => ¬ strEndsWith o.key "/")).map
    (fun o => (o.key, trimQuotes o.eTag))
  sha256Hex (String.join ((sortPairsByKey entries).map (fun p => p.1 ++ p.2)))

/-- Folding `+` over sizes is the sum of the mapped sizes. -/
theorem foldl_add_eq_sum {α : Type} (f : α → Int) (l : List α) (a : Int) :
    l.foldl (fun acc x => acc + f x) a = a + (l.map f).sum := by
  induction l generalizing a with
  | nil => simp
  | cons x t ih => simp [ih, add_assoc]

/-- C8: for a listing with distinct (non-directory) keys, `checkS3Source` produces
exactly the spec's digest — SHA-256 over `key ∥ strippedETag` pairs in
lexicographically sorted key order, directories skipped — and metadata recording
the per-key stripped ETags, the total byte size and the file count of the
remaining objects. -/
theorem c8_s3_digest_refines_spec (ds : DocumentSet) (objects : List S3Object)
    (res : SourceChangeResult)
    (hnd : ((objects.filter (fun o => ¬ strEndsWith o.key "/")).map S3Object.key).Nodup)
    (h : checkS3Source ds (.ok objects) = .ok res) :
    res.newHash = s3DigestSpec objects ∧
    res.newMetadata = some
      { fileCount := ((objects.filter (fun o => ¬ strEndsWith o.key "/")).length : Int)
        totalSize := ((objects.filter (fun o => ¬ strEndsWith o.key "/")).map S3Object.size).sum
        fileHashes := some ((objects.filter (fun o => ¬ strEndsWith o.key "/")).map
          (fun o => (o.key, trimQuotes o.eTag))) } := by
  unfold checkS3Source at h
  by_cases hu : ¬ strStartsWith ds.spec.source.uri "s3://"
  · rw [if_pos hu] at h
    exact Except.noConfusion h
  · rw [if_neg hu] at h
    cases h
    have hfst : ((objects.filter (fun o => ¬ strEndsWith o.key "/")).map
        (fun o => (o.key, trimQuotes o.eTag))).map Prod.fst =
        (objects.filter (fun o => ¬ strEndsWith o.key "/")).map S3Object.key := by
      rw [List.map_map]; rfl
    constructor
    · rw [applyChangeDetermination_newHash]
      show combineFileHashes _ _ = _
      unfold s3DigestSpec
      rw [← combineFileHashes_eq_sorted_pairs _ (by rw [hfst]; exact hnd), hfst]
    · rw [applyChangeDetermination_newMetadata]
      show some _ = some _
      rw [foldl_add_eq_sum S3Object.size _ 0, zero_add]

/-- Whether an `Except` carries a result. -/
def exceptIsOk {ε α : Type} : Except ε α → Bool
  | .ok _ => true
  | .error _ => false

/-- C8 witness fixtures: an S3 DocumentSet and a listing with a directory key and
quoted ETags, enumerated out of order. -/
def dsS3C8 : DocumentSet :=
  { name := "s3-docs-c8", nspace := "default", generation := 1
    spec := mkDocSpec { type := "s3", uri := "s3://company-docs/p/", secretRef := none }
                      (some (mkAutoPolicy "1m"))
    status := {} }

def objsC8 : List S3Object :=
  [{ key := "p/", eTag := "\"d\"", size := 0 },
   { key := "p/b.md", eTag := "\"y2\"", size := 7 },
   { key := "p/a.md", eTag := "\"x1\"", size := 3 }]

/-- C8 witness: on the concrete listing the check succeeds, the digest equals the
spec's sorted digest, and the metadata skips the directory, strips the ETag
quotes and accumulates size 10 over 2 files. -/
theorem c8_s3_digest_refines_spec_witness :
    ∃ res, checkS3Source dsS3C8 (.ok objsC8) = .ok res ∧
      res.newHash = s3DigestSpec objsC8 ∧
      res.newMetadata = some
        { fileCount := 2, totalSize := 10
          fileHashes := some [("p/b.md", "y2"), ("p/a.md", "x1")] } := by
  have hOk : exceptIsOk (checkS3Source dsS3C8 (.ok objsC8)) = true := by decide
  rcases hE : checkS3Source dsS3C8 (.ok objsC8) with e | res
  · rw [hE] at hOk
    exact Bool.noConfusion hOk
  · have h8 := c8_s3_digest_refines_spec dsS3C8 objsC8 res (by decide) hE
    refine ⟨res, rfl, h8.1, ?_⟩
    rw [h8.2]
    decide

/-- C6: the key-diff of two per-file hash maps with distinct keys satisfies
`added = keys(new) \ keys(old)`, `deleted = keys(old) \ keys(new)` and
`changed = {k in both : old[k] ≠ new[k]}`, and the three lists are pairwise
disjoint; and `checkS3Source` reports `changed = true` with
`filesAdded = fileCount` on an empty `lastSourceHash`, and `changed = false`
when the recorded hash equals the new one. -/
theorem c6_diff_correctness_and_change_determination :
    (∀ (old new : List (String × String)), (old.map Prod.fst).Nodup →
      (new.map Prod.fst).Nodup → ∀ k : String,
      (k ∈ (diffFileHashes old new).1 ↔ k ∈ new.map Prod.fst ∧ k ∉ old.map Prod.fst) ∧
      (k ∈ (diffFileHashes old new).2.1 ↔ k ∈ old.map Prod.fst ∧ k ∉ new.map Prod.fst) ∧
      (k ∈ (diffFileHashes old new).2.2 ↔
        ∃ v w, List.lookup k old = some v ∧ List.lookup k new = some w ∧ v ≠ w) ∧
      ¬(k ∈ (diffFileHashes old new).1 ∧ k ∈ (diffFileHashes old new).2.1) ∧
      ¬(k ∈ (diffFileHashes old new).1 ∧ k ∈ (diffFileHashes old new).2.2) ∧
      ¬(k ∈ (diffFileHashes old new).2.1 ∧ k ∈ (diffFileHashes old new).2.2)) ∧
    (∀ (ds : DocumentSet) (objects : List S3Object) (res : SourceChangeResult),
      checkS3Source ds (.ok objects) = .ok res →
      (ds.status.lastSourceHash = "" → res.changed = true ∧
        res.filesAdded = ((objects.filter (fun o => ¬ strEndsWith o.key "/")).length : Int)) ∧
      (ds.status.lastSourceHash ≠ "" → ds.status.lastSourceHash = res.newHash →
        res.changed = false)) := by
  constructor
  · intro old new hold hnew k
    have hadd : k ∈ (diffFileHashes old new).1 ↔
        k ∈ new.map Prod.fst ∧ k ∉ old.map Prod.fst := by
      unfold diffFileHashes lookupStr
      constructor
      · intro hka
        obtain ⟨p, hpf, rfl⟩ := List.mem_map.mp hka
        obtain ⟨hpmem, hcond⟩ := List.mem_filter.mp hpf
        exact ⟨List.mem_map.mpr ⟨p, hpmem, rfl⟩,
          (lookup_eq_none_iff p.1 old).mp (Option.isNone_iff_eq_none.mp (by simpa using hcond))⟩
      · rintro ⟨hkmem, hknot⟩
        obtain ⟨p, hpmem, rfl⟩ := List.mem_map.mp hkmem
        refine List.mem_map.mpr ⟨p, List.mem_filter.mpr ⟨hpmem, ?_⟩, rfl⟩
        simpa using Option.isNone_iff_eq_none.mpr ((lookup_eq_none_iff p.1 old).mpr hknot)
    have hdel : k ∈ (diffFileHashes old new).2.1 ↔
        k ∈ old.map Prod.fst ∧ k ∉ new.map Prod.fst := by
      unfold diffFileHashes lookupStr
      constructor
      · intro hka
        obtain ⟨p, hpf, rfl⟩ := List.mem_map.mp hka
        obtain ⟨hpmem, hcond⟩ := List.mem_filter.mp hpf
        exact ⟨List.mem_map.mpr ⟨p, hpmem, rfl⟩,
          (lookup_eq_none_iff p.1 new).mp (Option.isNone_iff_eq_none.mp (by simpa using hcond))⟩
      · rintro ⟨hkmem, hknot⟩
        obtain ⟨p, hpmem, rfl⟩ := List.mem_map.mp hkmem
        refine List.mem_map.mpr ⟨p, List.mem_filter.mpr ⟨hpmem, ?_⟩, rfl⟩
        simpa using Option.isNone_iff_eq_none.mpr ((lookup_eq_none_iff p.1 new).mpr hknot)
    have hchg : k ∈ (diffFileHashes old new).2.2 ↔
        ∃ v w, List.lookup k old = some v ∧ List.lookup k new = some w ∧ v ≠ w := by
      unfold diffFileHashes lookupStr
      constructor
      · intro hka
        obtain ⟨p, hpf, rfl⟩ := List.mem_map.mp hka
        obtain ⟨hpmem, hcond⟩ := List.mem_filter.mp hpf
        cases hl : List.lookup p.1 old with
        | none =>
            rw [hl] at hcond
            exact absurd hcond (by simp)
        | some w =>
            rw [hl] at hcond
            exact ⟨w, p.2, rfl, lookup_eq_some_of_mem hnew hpmem,
              of_decide_eq_true (by simpa using hcond)⟩
      · rintro ⟨v, w, hlo, hln, hvw⟩
        refine List.mem_map.mpr ⟨(k, w), List.mem_filter.mpr
          ⟨mem_of_lookup_eq_some hln, ?_⟩, rfl⟩
        show (match List.lookup k old with
              | some oldHash => decide ¬oldHash = w
              | none => false) = true
        rw [hlo]
        simpa using hvw
    refine ⟨hadd, hdel, hchg, ?_, ?_, ?_⟩
    · rintro ⟨ha, hd⟩
      exact (hadd.mp ha).2 (hdel.mp hd).1
    · rintro ⟨ha, hc⟩
      obtain ⟨v, w, hlo, _, _⟩ := hchg.mp hc
      exact (hadd.mp ha).2 (List.mem_map.mpr ⟨(k, v), mem_of_lookup_eq_some hlo, rfl⟩)
    · rintro ⟨hd, hc⟩
      obtain ⟨v, w, _, hln, _⟩ := hchg.mp hc
      exact (hdel.mp hd).2 (List.mem_map.mpr ⟨(k, w), mem_of_lookup_eq_some hln, rfl⟩)
  · intro ds objects res h
    unfold checkS3Source at h
    by_cases hu : ¬ strStartsWith ds.spec.source.uri "s3://"
    · rw [if_pos hu] at h
      exact Except.noConfusion h
    · rw [if_neg hu] at h
      cases h
      constructor
      · intro hl
        unfold applyChangeDetermination
        rw [if_neg (by simp [hl]), if_pos hl]
        exact ⟨rfl, rfl⟩
      · intro hne heq
        rw [applyChangeDetermination_newHash] at heq
        unfold applyChangeDetermination
        rw [if_neg (by simp [heq]), if_neg hne]

/-- C6 witness fixtures: overlapping old/new hash maps and an S3 resource with no
recorded hash. -/
def oldC6 : List (String × String) := [("a", "1"), ("b", "2")]

def newC6 : List (String × String) := [("b", "3"), ("c", "4")]

def dsS3C6 : DocumentSet :=
  { name := "s3-docs-c6", nspace := "default", generation := 1
    spec := mkDocSpec { type := "s3", uri := "s3://bkt/p/", secretRef := none }
                      (some (mkAutoPolicy "1m"))
    status := {} }

def objsC6 : List S3Object :=
  [{ key := "p/x.md", eTag := "\"h1\"", size := 4 },
   { key := "p/y.md", eTag := "\"h2\"", size := 5 }]

/-- C6 witness: on the concrete maps, `c` is added, `a` deleted, `b` changed, and
the first check of the concrete S3 resource reports all files as added. -/
theorem c6_diff_correctness_witness :
    "c" ∈ (diffFileHashes oldC6 newC6).1 ∧
    "a" ∈ (diffFileHashes oldC6 newC6).2.1 ∧
    "b" ∈ (diffFileHashes oldC6 newC6).2.2 ∧
    ¬("c" ∈ (diffFileHashes oldC6 newC6).1 ∧ "c" ∈ (diffFileHashes oldC6 newC6).2.1) ∧
    (∃ res, checkS3Source dsS3C6 (.ok objsC6) = .ok res ∧
      res.changed = true ∧ res.filesAdded = 2) := by
  have h1 := c6_diff_correctness_and_change_determination.1 oldC6 newC6
    (by decide) (by decide)
  refine ⟨(h1 "c").1.mpr ⟨by decide, by decide⟩,
          (h1 "a").2.1.mpr ⟨by decide, by decide⟩,
          (h1 "b").2.2.1.mpr ⟨"2", "3", by decide, by decide, by decide⟩,
          (h1 "c").2.2.2.1, ?_⟩
  have hOk : exceptIsOk (checkS3Source dsS3C6 (.ok objsC6)) = true := by decide
  rcases hE : checkS3Source dsS3C6 (.ok objsC6) with e | res
  · rw [hE] at hOk
    exact Bool.noConfusion hOk
  · have h2 := (c6_diff_correctness_and_change_determination.2 dsS3C6 objsC6 res hE).1 rfl
    exact ⟨res, rfl, h2.1, by rw [h2.2]; decide⟩

/-! ## C9: terminal immutability and the retry bound -/

/-- One embedding reconciliation preserves the spec, and changes `retryCount`
only by the guarded increment. -/
theorem embedReconcile_retry_step (j : EmbeddingJob) (env : EmbedEnv) (now : Int) :
    (embedReconcile j env now).1.spec = j.spec ∧
    ((embedReconcile j env now).1.status.retryCount = j.status.retryCount ∨
      (j.status.retryCount < effectiveMaxRetries j.spec.retryPolicy ∧
        (embedReconcile j env now).1.status.retryCount = j.status.retryCount + 1)) := by
  unfold embedReconcile embHandlePendingPhase embHandleRunningPhase embInitializeStatus
    embUpdateStatusSucceeded embUpdateStatusFailed embRetryMutation
  repeat' split
  all_goals refine ⟨rfl, ?_⟩
  all_goals simp_all

/-- One index reconciliation preserves the spec, and changes `retryCount` only by
the guarded increment. -/
theorem indexReconcile_retry_step (j : IndexJob) (env : IndexEnv) (now : Int) :
    (indexReconcile j env now).1.spec = j.spec ∧
    ((indexReconcile j env now).1.status.retryCount = j.status.retryCount ∨
      (j.status.retryCount < effectiveMaxRetries j.spec.retryPolicy ∧
        (indexReconcile j env now).1.status.retryCount = j.status.retryCount + 1)) := by
  unfold indexReconcile idxHandlePendingPhase idxHandleBuildingPhase idxInitializeStatus
    idxHandleJobSucceeded idxUpdateStatusFailed
  repeat' split
  all_goals refine ⟨rfl, ?_⟩
  all_goals simp_all

/-- A cluster-state transition performed by the embedding task reconciler: some
observation environment and instant produce the new object (the panicking retry
path still counts, with its pre-panic status write). -/
def EmbedStep (j j' : EmbeddingJob) : Prop :=
  ∃ env now, (embedReconcile j env now).1 = j'

/-- States of an embedding task reachable through the reconciler. -/
def EmbedReachable : EmbeddingJob → EmbeddingJob → Prop :=
  Relation.ReflTransGen EmbedStep

/-- A cluster-state transition performed by the index task reconciler. -/
def IndexStep (j j' : IndexJob) : Prop :=
  ∃ env now, (indexReconcile j env now).1 = j'

/-- States of an index task reachable through the reconciler. -/
def IndexReachable : IndexJob → IndexJob → Prop :=
  Relation.ReflTransGen IndexStep

/-- C9: (a) a task in a terminal phase (Succeeded/Failed) is returned by its
reconciler unchanged, with the empty result — no further status mutation; and
(b) along every reconciler-reachable trajectory, `retryCount` never exceeds the
effective `maxRetries`, because it is incremented only under the guard
`retryCount < maxRetries`. -/
theorem c9_terminal_noop_and_retry_bound :
    (∀ (j : EmbeddingJob) (env : EmbedEnv) (now : Int),
      j.status.phase = EmbeddingJobPhaseSucceeded ∨ j.status.phase = EmbeddingJobPhaseFailed →
      embedReconcile j env now = (j, some emptyResult)) ∧
    (∀ (j : IndexJob) (env : IndexEnv) (now : Int),
      j.status.phase = IndexJobPhaseSucceeded ∨ j.status.phase = IndexJobPhaseFailed →
      indexReconcile j env now = (j, some emptyResult)) ∧
    (∀ (j0 j : EmbeddingJob), EmbedReachable j0 j →
      j0.status.retryCount ≤ effectiveMaxRetries j0.spec.retryPolicy →
      j.status.retryCount ≤ effectiveMaxRetries j.spec.retryPolicy) ∧
    (∀ (j0 j : IndexJob), IndexReachable j0 j →
      j0.status.retryCount ≤ effectiveMaxRetries j0.spec.retryPolicy →
      j.status.retryCount ≤ effectiveMaxRetries j.spec.retryPolicy) := by
  refine ⟨?_, ?_, ?_, ?_⟩
  · intro j env now hterm
    unfold embedReconcile
    rcases hterm with h | h <;>
      simp [h, EmbeddingJobPhasePending, EmbeddingJobPhaseRunning,
        EmbeddingJobPhaseSucceeded, EmbeddingJobPhaseFailed]
  · intro j env now hterm
    unfold indexReconcile
    rcases hterm with h | h <;>
      simp [h, IndexJobPhasePending, IndexJobPhaseBuilding, IndexJobPhaseOptimizing,
        IndexJobPhaseSucceeded, IndexJobPhaseFailed]
  · intro j0 j hreach h0
    induction hreach with
    | refl => exact h0
    | tail _ hstep ih =>
        rename_i b c _
        obtain ⟨env, now, hc⟩ := hstep
        have hs := embedReconcile_retry_step b env now
        rw [hc] at hs
        rcases hs.2 with he | ⟨hlt, he⟩
        · rw [he, hs.1]
          exact ih
        · rw [he, hs.1]
          omega
  · intro j0 j hreach h0
    induction hreach with
    | refl => exact h0
    | tail _ hstep ih =>
        rename_i b c _
        obtain ⟨env, now, hc⟩ := hstep
        have hs := indexReconcile_retry_step b env now
        rw [hc] at hs
        rcases hs.2 with he | ⟨hlt, he⟩
        · rw [he, hs.1]
          exact ih
        · rw [he, hs.1]
          omega

/-- C9 witness fixtures: terminal and running tasks of both kinds. -/
def jTermC9 : EmbeddingJob :=
  { name := "emb-done", nspace := "default"
    spec := { documentSet := "ds", embeddingModel := "bge"
              vectorDB := { type := "qdrant", collection := "c", endpoint := "", secretRef := none }
              retryPolicy := some { maxRetries := 2, backoffSeconds := 10 } }
    status := { phase := "Succeeded", retryCount := 2, message := "done" } }

def jRunC9 : EmbeddingJob :=
  { jTermC9 with name := "emb-run"
                 status := { phase := "Running", retryCount := 0, jobRef := "emb-run-job" } }

def jTermIdxC9 : IndexJob :=
  { name := "idx-done", nspace := "default"
    spec := { documentSet := "ds", targetAlias := "kb"
              vectorDB := { type := "qdrant", collection := "c", endpoint := "", secretRef := none }
              indexSpec := { type := "HNSW", parameters := [("efConstruction", "200"), ("M", "16")] }
              retryPolicy := none }
    status := { phase := "Failed", retryCount := 3, message := "failed" } }

def jBuildC9 : IndexJob :=
  { jTermIdxC9 with name := "idx-build"
                    status := { phase := "Building", retryCount := 0, jobRef := "idx-build-job" } }

def envFailC9 : EmbedEnv := { k8sJob := some { failed := 1 } }

def envFailIdxC9 : IndexEnv := { k8sJob := some { failed := 1 } }

/-- C9 witness: the concrete terminal tasks are returned untouched with the empty
result, and after one observed workload failure the concrete retried tasks still
satisfy `retryCount ≤ maxRetries`. -/
theorem c9_terminal_noop_and_retry_bound_witness :
    embedReconcile jTermC9 {} 0 = (jTermC9, some emptyResult) ∧
    indexReconcile jTermIdxC9 {} 0 = (jTermIdxC9, some emptyResult) ∧
    (embedReconcile jRunC9 envFailC9 0).1.status.retryCount ≤
      effectiveMaxRetries (embedReconcile jRunC9 envFailC9 0).1.spec.retryPolicy ∧
    (indexReconcile jBuildC9 envFailIdxC9 0).1.status.retryCount ≤
      effectiveMaxRetries (indexReconcile jBuildC9 envFailIdxC9 0).1.spec.retryPolicy :=
  ⟨c9_terminal_noop_and_retry_bound.1 jTermC9 {} 0 (Or.inl rfl),
   c9_terminal_noop_and_retry_bound.2.1 jTermIdxC9 {} 0 (Or.inr rfl),
   c9_terminal_noop_and_retry_bound.2.2.1 jRunC9 _
     (Relation.ReflTransGen.single ⟨envFailC9, 0, rfl⟩) (by decide),
   c9_terminal_noop_and_retry_bound.2.2.2 jBuildC9 _
     (Relation.ReflTransGen.single ⟨envFailIdxC9, 0, rfl⟩) (by decide)⟩
